import Mathlib

/-!
Verification of the AArch64 instruction-lifting extension
(src/aarch64_extension.cpp) against its natural-language specification.

The C++ source is shallowly embedded below.  Machine integers are modelled
as Nat with explicit reductions modulo 2^w where the C++ type is a w-bit
unsigned integer.  The host platform's IL builder is modelled as an
expression tree type together with a list of emitted instructions: a lifter
becomes a pure function from the decoded-instruction detail to a pair of
its boolean result and the list of IL instructions it added.  The register
metadata catalog (GetRegisterInfo) is a parameter regSize : Nat -> Nat
giving each register id its byte width.
-/

namespace AArch64Ext

/-- The Capstone arm64_cc condition-code enumeration (17 values). -/
inductive Arm64CC
  | INVALID | EQ | NE | HS | LO | MI | PL | VS | VC
  | HI | LS | GE | LT | GT | LE | AL | NV
  deriving DecidableEq, Repr

/-- Numeric value of each arm64_cc enumerator in the Capstone header
(ARM64_CC_INVALID = 0, ARM64_CC_EQ = 1, ..., ARM64_CC_AL = 15,
ARM64_CC_NV = 16). -/
def Arm64CC.toNat : Arm64CC → Nat
  | .INVALID => 0
  | .EQ => 1
  | .NE => 2
  | .HS => 3
  | .LO => 4
  | .MI => 5
  | .PL => 6
  | .VS => 7
  | .VC => 8
  | .HI => 9
  | .LS => 10
  | .GE => 11
  | .LT => 12
  | .GT => 13
  | .LE => 14
  | .AL => 15
  | .NV => 16

/-- Numeric values of the BNLowLevelILFlagCondition enumerators of the host
API header, in declaration order. -/
def LLFC_E : Nat := 0

def LLFC_NE : Nat := 1

def LLFC_SLT : Nat := 2

def LLFC_ULT : Nat := 3

def LLFC_SLE : Nat := 4

def LLFC_ULE : Nat := 5

def LLFC_SGE : Nat := 6

def LLFC_UGE : Nat := 7

def LLFC_SGT : Nat := 8

def LLFC_UGT : Nat := 9

def LLFC_NEG : Nat := 10

def LLFC_POS : Nat := 11

def LLFC_O : Nat := 12

def LLFC_NO : Nat := 13

/-- Embedding of AArch64ArchitectureExtension::LiftCondition
(src/aarch64_extension.cpp lines 57-96).  The result is the numeric value
of the returned BNLowLevelILFlagCondition; for the three special codes the
source casts the arm64_cc value itself into the result type, so their
numeric arm64_cc values 0, 15, 16 are returned. -/
def LiftCondition : Arm64CC → Nat
  | .EQ => LLFC_E
  | .NE => LLFC_NE
  | .HS => LLFC_UGE
  | .LO => LLFC_ULE
  | .MI => LLFC_NEG
  | .PL => LLFC_POS
  | .VS => LLFC_O
  | .VC => LLFC_NO
  | .HI => LLFC_UGE
  | .LS => LLFC_ULE
  | .GE => LLFC_SGE
  | .LT => LLFC_SLT
  | .GT => LLFC_SGT
  | .LE => LLFC_SLE
  | .INVALID => Arm64CC.INVALID.toNat
  | .AL => Arm64CC.AL.toNat
  | .NV => Arm64CC.NV.toNat

/-- Embedding of the mask helper Ones<T> (src/aarch64_extension.cpp lines
9-15) for T an unsigned integer of bits many bits: count = bits is
special-cased to the all-ones value; otherwise the result is the
complement of the all-ones value shifted left by count, all arithmetic
modulo 2^bits.  Complement of x below 2^bits is (2^bits - 1) - x. -/
def Ones (bits : Nat) (count : Nat) : Nat :=
  if count = bits then
    2 ^ bits - 1
  else
    (2 ^ bits - 1) - ((2 ^ bits - 1) <<< count % 2 ^ bits)

example : Ones 8 7 = 0x7F := by decide
example : Ones 64 8 = 0xFF := by norm_num [Ones, Nat.shiftLeft_eq]
example : Ones 64 64 = 2 ^ 64 - 1 := by norm_num [Ones, Nat.shiftLeft_eq]

/-- Conversion of an Int to the value of the corresponding w-bit unsigned
integer (the C++ conversion from int64_t to an unsigned type). -/
def toUnsigned (bits : Nat) (v : Int) : Nat :=
  (v % ((2 : Int) ^ bits)).toNat

/-- The Capstone arm64 operand kinds relevant to this plugin
(arm64_op_type): register, immediate, and the remaining kinds (memory,
floating point, cimm, sys, prefetch, barrier, shift/extend carriers)
which the lifters here never match. -/
inductive OpType
  | reg
  | imm
  | mem
  | fp
  | other
  deriving DecidableEq, Repr, Inhabited

/-- A Capstone cs_arm64_op.  The C++ operand is a tagged union; the source
reads the reg and imm fields directly (mostly without inspecting type), so
both fields are modelled as plain data.  The reg field already stands for
the host register id obtained through GetRegisterByName on the operand's
register name. -/
structure Operand where
  type : OpType := .other
  reg : Nat := 0
  imm : Int := 0
  deriving DecidableEq, Repr, Inhabited

/-- The cs_arm64 instruction detail: condition code and operand list
(op_count is the length of the list). -/
structure CsArm64 where
  cc : Arm64CC
  operands : List Operand
  deriving Repr

/-- Host IL expression trees, as built by the LowLevelILFunction expression
constructors the plugin calls (Register, Const, Mult, Add, And, Or,
ShiftLeft, RotateRight, FlagCondition).  Sizes are byte widths. -/
inductive ILExpr
  | regE (size : Nat) (r : Nat)
  | constE (size : Nat) (v : Nat)
  | mult (size : Nat) (a b : ILExpr)
  | add (size : Nat) (a b : ILExpr)
  | andE (size : Nat) (a b : ILExpr)
  | orE (size : Nat) (a b : ILExpr)
  | shiftLeft (size : Nat) (a b : ILExpr)
  | rotateRight (size : Nat) (a b : ILExpr)
  | flagCond (c : Nat)
  deriving DecidableEq, Repr

/-- Events appended to the IL stream of one lift: the AddInstruction calls
(SetRegister assignments, If, Goto) and the MarkLabel placements.  Labels
are numbered by declaration order inside each lifter. -/
inductive ILInstr
  | setRegister (size : Nat) (r : Nat) (e : ILExpr)
  | ifInstr (cond : ILExpr) (t f : Nat)
  | goto (l : Nat)
  | markLabel (l : Nat)
  deriving DecidableEq, Repr

/-- Rotate right of the low bits many bits of x by s places (the host's
native rotate-right primitive on a bits-wide unsigned value). -/
def rotr (bits x s : Nat) : Nat :=
  if bits = 0 then 0
  else ((x % 2 ^ bits) >>> (s % bits) ||| x <<< (bits - s % bits)) % 2 ^ bits

/-- Value semantics of the host IL expressions used by this plugin, per
the external-interface contract: a register read truncates the register
value to the operand byte size, constants are truncated likewise, and the
arithmetic, bitwise, shift and rotate operators compute modulo 2^(8*size)
of the result size (unsigned, no sign extension).  flagCond is a
condition, not a value; it evaluates to 0 here. -/
def evalExpr (regs : Nat → Nat) : ILExpr → Nat
  | .regE size r => regs r % 2 ^ (8 * size)
  | .constE size v => v % 2 ^ (8 * size)
  | .mult size a b => evalExpr regs a * evalExpr regs b % 2 ^ (8 * size)
  | .add size a b => (evalExpr regs a + evalExpr regs b) % 2 ^ (8 * size)
  | .andE size a b => (evalExpr regs a &&& evalExpr regs b) % 2 ^ (8 * size)
  | .orE size a b => (evalExpr regs a ||| evalExpr regs b) % 2 ^ (8 * size)
  | .shiftLeft size a b => evalExpr regs a <<< evalExpr regs b % 2 ^ (8 * size)
  | .rotateRight size a b =>
      rotr (8 * size) (evalExpr regs a) (evalExpr regs b)
  | .flagCond _ => 0

/-- Operand i of the detail record.  Every access in the source is guarded
by the preceding op_count check, so the default is never reached under the
hypotheses of the theorems below. -/
def opAt (detail : CsArm64) (i : Nat) : Operand :=
  detail.operands.getD i default

/-- Embedding of AArch64ArchitectureExtension::LiftCSINC (lines 103-151).
Labels assignmentLabel, incrementLabel, afterLabel are numbered 0, 1, 2.
In the unconditional (AL/NV) branch the source passes the expression
il.Register(Rd_size, Rd) where SetRegister expects a register id (line
127); the destination register is modelled as Rd. -/
def LiftCSINC (regSize : Nat → Nat) (detail : CsArm64) : Bool × List ILInstr :=
  if detail.operands.length ≠ 3 then (false, [])
  else
    let Rd := (opAt detail 0).reg
    let Rn := (opAt detail 1).reg
    let Rm := (opAt detail 2).reg
    let Rd_size := regSize Rd
    let Rn_size := regSize Rn
    let Rm_size := regSize Rm
    if detail.cc = .INVALID ∨ (Rd_size ≠ Rn_size ∧ Rn_size ≠ Rm_size) then
      (false, [])
    else if detail.cc = .AL ∨ detail.cc = .NV then
      (true, [.setRegister Rd_size Rd (.regE Rn_size Rn)])
    else
      (true,
        [.ifInstr (.flagCond (LiftCondition detail.cc)) 0 1,
         .markLabel 0,
         .setRegister Rd_size Rd (.regE Rn_size Rn),
         .goto 2,
         .markLabel 1,
         .setRegister Rd_size Rd
           (.add Rd_size (.regE Rm_size Rm) (.constE Rd_size 1)),
         .markLabel 2])

/-- Embedding of AArch64ArchitectureExtension::LiftUMULL (lines 153-171):
after the arity check it unconditionally emits
Xd(8) = Mult(8, Register(4, Wn), Register(4, Wm)). -/
def LiftUMULL (regSize : Nat → Nat) (detail : CsArm64) : Bool × List ILInstr :=
  if detail.operands.length ≠ 3 then (false, [])
  else
    let Xd := (opAt detail 0).reg
    let Wn := (opAt detail 1).reg
    let Wm := (opAt detail 2).reg
    (true, [.setRegister 8 Xd (.mult 8 (.regE 4 Wn) (.regE 4 Wm))])

/-- Embedding of AArch64ArchitectureExtension::LiftCINC (lines 173-218).
Labels incrementLabel, assignmentLabel, afterLabel are numbered 0, 1, 2. -/
def LiftCINC (regSize : Nat → Nat) (detail : CsArm64) : Bool × List ILInstr :=
  if detail.operands.length ≠ 2 then (false, [])
  else
    let Rd := (opAt detail 0).reg
    let Rn := (opAt detail 1).reg
    let Rd_size := regSize Rd
    let Rn_size := regSize Rn
    if detail.cc = .INVALID then (false, [])
    else if detail.cc = .AL ∨ detail.cc = .NV then
      (true, [.setRegister Rd_size Rd
        (.add Rd_size (.regE Rn_size Rn) (.constE Rd_size 1))])
    else
      (true,
        [.ifInstr (.flagCond (LiftCondition detail.cc)) 0 1,
         .markLabel 0,
         .setRegister Rd_size Rd
           (.add Rd_size (.regE Rn_size Rn) (.constE Rd_size 1)),
         .goto 2,
         .markLabel 1,
         .setRegister Rd_size Rd (.regE Rn_size Rn),
         .markLabel 2])

/-- The inclusion-mask computation of LiftBFI (lines 241-246): on an
8-byte destination the mask is the uint64_t value Ones<uint64_t>(width)
<< lsb; on any other size it is the uint32_t value Ones<uint32_t>(width)
<< lsb, zero-extended on assignment to the uint64_t variable. -/
def bfiInclusionMask (Rd_size width lsb : Nat) : Nat :=
  if Rd_size = 8 then Ones 64 width <<< lsb % 2 ^ 64
  else Ones 32 width <<< lsb % 2 ^ 32

/-- Embedding of AArch64ArchitectureExtension::LiftBFI (lines 220-257).
Line 232 of the source computes Rn_size from GetRegisterInfo(Rd), not Rn,
and line 237 combines the two width tests with a logical AND of
Rd_size != Rn_size and the negated exclusive-or of Rd_size == 4 and
Rd_size == 8; both are reproduced exactly. -/
def LiftBFI (regSize : Nat → Nat) (detail : CsArm64) : Bool × List ILInstr :=
  if detail.operands.length ≠ 4 then (false, [])
  else
    let Rd := (opAt detail 0).reg
    let Rn := (opAt detail 1).reg
    let Rd_size := regSize Rd
    let Rn_size := regSize Rd
    let lsb := (opAt detail 2).imm
    let width := (opAt detail 3).imm
    if Rd_size ≠ Rn_size ∧ ¬ Xor' (Rd_size = 4) (Rd_size = 8) then
      (false, [])
    else
      let inclusion_mask :=
        bfiInclusionMask Rd_size (toUnsigned 64 width) (toUnsigned 64 lsb)
      let left := ILExpr.andE Rd_size (.regE Rd_size Rd)
        (.constE Rd_size (2 ^ 64 - 1 - inclusion_mask))
      let right := ILExpr.andE Rd_size
        (.shiftLeft Rd_size (.regE Rd_size Rn) (.constE 1 (toUnsigned 64 lsb)))
        (.constE Rd_size inclusion_mask)
      (true, [.setRegister Rd_size Rd (.orE Rd_size left right)])

/-- Embedding of AArch64ArchitectureExtension::LiftROR (lines 259-298).
Line 272 of the source computes Rn_size from GetRegisterInfo(Rd), not Rn;
this is reproduced exactly.  The uint32_t shift variable receives the
int64_t immediate by unsigned conversion. -/
def LiftROR (regSize : Nat → Nat) (detail : CsArm64) : Bool × List ILInstr :=
  if detail.operands.length ≠ 3 then (false, [])
  else
    let Rd := (opAt detail 0).reg
    let Rn := (opAt detail 1).reg
    let Rd_size := regSize Rd
    let Rn_size := regSize Rd
    if Rd_size ≠ Rn_size then (false, [])
    else if (opAt detail 2).type = .reg then
      let Rm := (opAt detail 2).reg
      (true, [.setRegister Rd_size Rd
        (.rotateRight Rd_size (.regE Rd_size Rn) (.regE Rd_size Rm))])
    else if (opAt detail 2).type = .imm then
      let shift := toUnsigned 32 (opAt detail 2).imm
      (true, [.setRegister Rd_size Rd
        (.rotateRight Rd_size (.regE Rd_size Rn) (.constE Rd_size shift))])
    else (false, [])

/-- The instruction mnemonics the dispatch switch (lines 307-338) matches
on; all other cs_insn ids take the default path. -/
inductive Mnemonic
  | csinc
  | umull
  | cinc
  | bfi
  | ror
  | other
  deriving DecidableEq, Repr

/-- A decoded cs_insn as consumed by the dispatch: instruction id, byte
size, and the arm64 detail record. -/
structure DecodedInsn where
  id : Mnemonic
  size : Nat
  detail : CsArm64
  deriving Repr

/-- Embedding of AArch64ArchitectureExtension::GetInstructionLowLevelIL
(lines 300-351).  The decoder call cs_disasm is a parameter: some instr
when count > 0, none when count = 0.  The inherited base lift
ArchitectureHook::GetInstructionLowLevelIL is the parameter baseLift,
mapping the length it is handed to its result and emitted IL.  Line 341
executes len = instr->size unconditionally; when count = 0 no
cs_insn record was ever produced and the read returns whatever the
dangling pointer holds, modelled by the junkSize parameter.  Result:
(returned bool, final len, IL stream). -/
def GetInstructionLowLevelIL (regSize : Nat → Nat)
    (baseLift : Nat → Bool × List ILInstr)
    (decoded : Option DecodedInsn) (junkSize : Nat) (len : Nat) :
    Bool × Nat × List ILInstr :=
  let lifted : Bool × List ILInstr :=
    match decoded with
    | some instr =>
      match instr.id with
      | .csinc => LiftCSINC regSize instr.detail
      | .umull => LiftUMULL regSize instr.detail
      | .cinc => LiftCINC regSize instr.detail
      | .bfi => LiftBFI regSize instr.detail
      | .ror => LiftROR regSize instr.detail
      | .other => (false, [])
    | none => (false, [])
  let len1 : Nat :=
    match decoded with
    | some instr => instr.size
    | none => junkSize
  if lifted.fst then (true, len1, lifted.snd)
  else
    let b := baseLift len1
    (b.fst, len1, lifted.snd ++ b.snd)

/-- Claim C1, code evaluation at the failing inputs: the condition-code
translator is not the one-to-one standard-table map the claim states.  LO
is translated to LLFC_ULE (unsigned-lower-or-same) instead of LLFC_ULT
(unsigned-lower), HI to LLFC_UGE (unsigned-higher-or-same) instead of
LLFC_UGT (unsigned-higher); consequently HS and HI collide on LLFC_UGE
and LO and LS collide on LLFC_ULE, so the 13-code map is not injective. -/
theorem liftCondition_LO_HI_collide :
    LiftCondition .LO = LLFC_ULE ∧ LiftCondition .LO ≠ LLFC_ULT ∧
    LiftCondition .HI = LLFC_UGE ∧ LiftCondition .HI ≠ LLFC_UGT ∧
    LiftCondition .HS = LiftCondition .HI ∧
    LiftCondition .LS = LiftCondition .LO := by
  decide

/-- Claim C8, counterexample to the claim as stated: for an 8-byte
destination with lsb = 4 and width = 8 the inclusion mask LiftBFI computes
is 0xFF0, not the value 0x7F0 the claim asserts. -/
theorem bfiInclusionMask_ne_7F0 :
    bfiInclusionMask 8 8 4 ≠ 0x7F0 := by
  norm_num [bfiInclusionMask, Ones, Nat.shiftLeft_eq]

/-- Claim C8 as amended: for an 8-byte register, lsb = 4 and field width 8
the computed inclusion mask equals 0xFF0 (8 one-bits starting at bit 4),
and Ones(8) << 4 = 0xFF0. -/
theorem bfiInclusionMask_8_4 :
    bfiInclusionMask 8 8 4 = 0xFF0 ∧ Ones 64 8 <<< 4 = 0xFF0 := by
  norm_num [bfiInclusionMask, Ones, Nat.shiftLeft_eq]

/-- Claim C9: the mask generator special-cases a full-width count to the
all-ones value (taking the first branch of its definition, which performs
no shift), and for every count up to the full bit width the result has
exactly count contiguous low one-bits, that is Ones bits count =
2 ^ count - 1. -/
theorem ones_low_bits (w count : Nat) (h : count ≤ w) :
    Ones w w = 2 ^ w - 1 ∧ Ones w count = 2 ^ count - 1 := by
  refine ⟨by simp [Ones], ?_⟩
  by_cases hc : count = w
  · subst hc; simp [Ones]
  · have hlt : count < w := lt_of_le_of_ne h hc
    have hB : (2 : Nat) ^ count < 2 ^ w :=
      Nat.pow_lt_pow_right (by norm_num) hlt
    have hB1 : (1 : Nat) ≤ 2 ^ count := Nat.one_le_two_pow
    have h1w : (1 : Nat) ≤ 2 ^ w := Nat.one_le_two_pow
    unfold Ones
    rw [if_neg hc, Nat.shiftLeft_eq]
    have key : (2 ^ w - 1) * 2 ^ count =
        (2 ^ w - 2 ^ count) + 2 ^ w * (2 ^ count - 1) := by
      zify [hB.le, hB1, h1w]
      ring
    have hfin : (2 ^ w - 1) * 2 ^ count % 2 ^ w = 2 ^ w - 2 ^ count := by
      rw [key, Nat.add_mul_mod_self_left, Nat.mod_eq_of_lt (by omega)]
    rw [hfin]
    omega

/-- Witness for ones_low_bits at w = 64, count = 8. -/
theorem ones_low_bits_witness :
    8 ≤ 64 ∧ (Ones 64 64 = 2 ^ 64 - 1 ∧ Ones 64 8 = 2 ^ 8 - 1) :=
  ⟨by norm_num, ones_low_bits 64 8 (by norm_num)⟩

/-- A register catalog: register 0 is 4 bytes wide (a W register), every
other register is 8 bytes wide (an X register). -/
def rsMix : Nat → Nat := fun r => if r = 0 then 4 else 8

/-- A detail record with no operands: rejected by every lifter's arity
check. -/
def dEmpty : CsArm64 := ⟨.EQ, []⟩

/-- CSINC detail with an invalid condition code and three register
operands. -/
def csincInvalid : CsArm64 := ⟨.INVALID, [⟨.reg, 0, 0⟩, ⟨.reg, 1, 0⟩, ⟨.reg, 2, 0⟩]⟩

/-- UMULL detail: destination register 0, sources registers 1 and 2. -/
def umullOps : CsArm64 := ⟨.AL, [⟨.reg, 0, 0⟩, ⟨.reg, 1, 0⟩, ⟨.reg, 2, 0⟩]⟩

/-- Register file holding Wn = 0xFFFFFFFF in register 1 and Wm = 2 in
register 2. -/
def regsU : Nat → Nat := fun r => if r = 1 then 0xFFFFFFFF else if r = 2 then 2 else 0

/-- BFI detail whose destination (register 0) is 4 bytes wide under rsMix
while its source Rn (register 1) is 8 bytes wide, with lsb 4 and width 8. -/
def bfiMixed : CsArm64 :=
  ⟨.AL, [⟨.reg, 0, 0⟩, ⟨.reg, 1, 0⟩, ⟨.imm, 0, 4⟩, ⟨.imm, 0, 8⟩]⟩

/-- ROR detail whose destination (register 0) is 4 bytes wide under rsMix
while its source Rn (register 1) is 8 bytes wide. -/
def rorMixed : CsArm64 := ⟨.AL, [⟨.reg, 0, 0⟩, ⟨.reg, 1, 0⟩, ⟨.reg, 2, 0⟩]⟩

/-- ROR detail whose third operand is a memory operand (neither register
nor immediate). -/
def rorMem : CsArm64 := ⟨.AL, [⟨.reg, 1, 0⟩, ⟨.reg, 2, 0⟩, ⟨.mem, 0, 0⟩]⟩

/-- A stand-in for the inherited base lift that accepts everything. -/
def baseTrue : Nat → Bool × List ILInstr := fun _ => (true, [])

/-- Claim C2, code evaluation at the failing input: LiftBFI accepts a
4-operand BFI whose actual Rd and Rn widths differ (4 bytes versus 8
bytes under rsMix) and emits IL for it, because line 232 computes both
sizes from Rd and line 237 joins the two width tests with a logical AND;
the claim says such an instruction is rejected with no IL. -/
theorem liftBFI_accepts_mismatched_widths :
    rsMix 0 = 4 ∧ rsMix 1 = 8 ∧ (LiftBFI rsMix bfiMixed).fst = true ∧
    (LiftBFI rsMix bfiMixed).snd ≠ [] := by
  decide

/-- Claim C7, code evaluation at the failing input: LiftROR accepts a
3-operand ROR whose actual Rd and Rn widths differ (4 bytes versus 8
bytes under rsMix) and emits IL for it, because line 272 computes Rn_size
from Rd, making the width check at line 274 unable to fail; the claim
says such an instruction is rejected with no IL. -/
theorem liftROR_accepts_mismatched_widths :
    rsMix 0 = 4 ∧ rsMix 1 = 8 ∧ (LiftROR rsMix rorMixed).fst = true ∧
    (LiftROR rsMix rorMixed).snd ≠ [] := by
  decide

/-- Claim C3, code evaluation at the failing input: when the decoder
produces no instruction (cs_disasm returns count 0), line 341 still
executes len = instr->size, so the length handed to the base lift and
returned to the host is whatever the never-produced record holds (here
junkSize 7, then 9), not the default length 4 the call started with. -/
theorem getInstructionLowLevelIL_junk_length :
    (GetInstructionLowLevelIL rsMix baseTrue none 7 4).2.1 = 7 ∧
    (GetInstructionLowLevelIL rsMix baseTrue none 9 4).2.1 = 9 := by
  decide

/-- Claim C4: a 3-operand CSINC is rejected exactly when the condition
code is invalid or both width inequalities hold at once (Rd width differs
from Rn width and Rn width differs from Rm width); a single mismatched
pair does not reject, matching lines 120-123 of the source. -/
theorem liftCSINC_reject_iff (regSize : Nat → Nat) (d : CsArm64)
    (h : d.operands.length = 3) :
    (LiftCSINC regSize d).fst = false ↔
      (d.cc = .INVALID ∨
        (regSize (opAt d 0).reg ≠ regSize (opAt d 1).reg ∧
         regSize (opAt d 1).reg ≠ regSize (opAt d 2).reg)) := by
  have hlen : ¬ d.operands.length ≠ 3 := by omega
  unfold LiftCSINC
  rw [if_neg hlen]
  dsimp only
  by_cases h1 : d.cc = .INVALID ∨
      (regSize (opAt d 0).reg ≠ regSize (opAt d 1).reg ∧
       regSize (opAt d 1).reg ≠ regSize (opAt d 2).reg)
  · rw [if_pos h1]
    exact iff_of_true rfl h1
  · rw [if_neg h1]
    by_cases h2 : d.cc = .AL ∨ d.cc = .NV
    · rw [if_pos h2]
      exact iff_of_false (by simp) h1
    · rw [if_neg h2]
      exact iff_of_false (by simp) h1

/-- Witness for liftCSINC_reject_iff on csincInvalid under rsMix. -/
theorem liftCSINC_reject_iff_witness :
    csincInvalid.operands.length = 3 ∧
    ((LiftCSINC rsMix csincInvalid).fst = false ↔
      (csincInvalid.cc = .INVALID ∨
        (rsMix (opAt csincInvalid 0).reg ≠ rsMix (opAt csincInvalid 1).reg ∧
         rsMix (opAt csincInvalid 1).reg ≠ rsMix (opAt csincInvalid 2).reg))) :=
  ⟨rfl, liftCSINC_reject_iff rsMix csincInvalid rfl⟩

/-- Claim C5: a 3-operand UMULL always lifts to the single assignment
Xd(8) = Mult(8, Register(4, Wn), Register(4, Wm)), and under the host's
unsigned modular IL semantics that product expression evaluates, for
register values Wn = 0xFFFFFFFF and Wm = 2, to the widening unsigned
product 0x1FFFFFFFE with no sign extension. -/
theorem liftUMULL_widening (regSize : Nat → Nat) (d : CsArm64)
    (regs : Nat → Nat) (h : d.operands.length = 3)
    (hn : regs (opAt d 1).reg = 0xFFFFFFFF)
    (hm : regs (opAt d 2).reg = 2) :
    LiftUMULL regSize d =
      (true, [.setRegister 8 (opAt d 0).reg
        (.mult 8 (.regE 4 (opAt d 1).reg) (.regE 4 (opAt d 2).reg))]) ∧
    evalExpr regs
        (.mult 8 (.regE 4 (opAt d 1).reg) (.regE 4 (opAt d 2).reg)) =
      0x1FFFFFFFE := by
  constructor
  · unfold LiftUMULL
    rw [if_neg (by omega)]
  · norm_num [evalExpr, hn, hm]

/-- Witness for liftUMULL_widening on umullOps with register file regsU. -/
theorem liftUMULL_widening_witness :
    umullOps.operands.length = 3 ∧
    (LiftUMULL rsMix umullOps =
      (true, [.setRegister 8 (opAt umullOps 0).reg
        (.mult 8 (.regE 4 (opAt umullOps 1).reg)
          (.regE 4 (opAt umullOps 2).reg))]) ∧
    evalExpr regsU
        (.mult 8 (.regE 4 (opAt umullOps 1).reg)
          (.regE 4 (opAt umullOps 2).reg)) = 0x1FFFFFFFE) :=
  ⟨rfl, liftUMULL_widening rsMix umullOps regsU rfl rfl rfl⟩

/-- Every lifter result is either the rejection pair (false, no IL) or an
acceptance; used to show no rejection path emits IL. -/
theorem liftCSINC_cases (regSize : Nat → Nat) (d : CsArm64) :
    LiftCSINC regSize d = (false, []) ∨ (LiftCSINC regSize d).fst = true := by
  unfold LiftCSINC
  repeat' split <;> simp_all
  all_goals tauto

theorem liftUMULL_cases (regSize : Nat → Nat) (d : CsArm64) :
    LiftUMULL regSize d = (false, []) ∨ (LiftUMULL regSize d).fst = true := by
  unfold LiftUMULL
  repeat' split <;> simp_all

theorem liftCINC_cases (regSize : Nat → Nat) (d : CsArm64) :
    LiftCINC regSize d = (false, []) ∨ (LiftCINC regSize d).fst = true := by
  unfold LiftCINC
  repeat' split <;> simp_all

theorem liftBFI_cases (regSize : Nat → Nat) (d : CsArm64) :
    LiftBFI regSize d = (false, []) ∨ (LiftBFI regSize d).fst = true := by
  unfold LiftBFI
  repeat' split <;> simp_all

theorem liftROR_cases (regSize : Nat → Nat) (d : CsArm64) :
    LiftROR regSize d = (false, []) ∨ (LiftROR regSize d).fst = true := by
  unfold LiftROR
  repeat' split <;> simp_all

/-- Claim C6: each of the five lifters is atomic — whenever it returns
false (rejection: wrong operand count, invalid condition code, failed
width check, or unsupported operand kind) it has added no IL instruction
at all. -/
theorem lifters_atomic (regSize : Nat → Nat) (d : CsArm64) :
    ((LiftCSINC regSize d).fst = false → (LiftCSINC regSize d).snd = []) ∧
    ((LiftUMULL regSize d).fst = false → (LiftUMULL regSize d).snd = []) ∧
    ((LiftCINC regSize d).fst = false → (LiftCINC regSize d).snd = []) ∧
    ((LiftBFI regSize d).fst = false → (LiftBFI regSize d).snd = []) ∧
    ((LiftROR regSize d).fst = false → (LiftROR regSize d).snd = []) := by
  refine ⟨fun hf => ?_, fun hf => ?_, fun hf => ?_, fun hf => ?_, fun hf => ?_⟩
  · rcases liftCSINC_cases regSize d with hc | hc
    · rw [hc]
    · rw [hc] at hf; cases hf
  · rcases liftUMULL_cases regSize d with hc | hc
    · rw [hc]
    · rw [hc] at hf; cases hf
  · rcases liftCINC_cases regSize d with hc | hc
    · rw [hc]
    · rw [hc] at hf; cases hf
  · rcases liftBFI_cases regSize d with hc | hc
    · rw [hc]
    · rw [hc] at hf; cases hf
  · rcases liftROR_cases regSize d with hc | hc
    · rw [hc]
    · rw [hc] at hf; cases hf

/-- Witness for lifters_atomic on the zero-operand detail dEmpty, which
every lifter rejects through its arity check. -/
theorem lifters_atomic_witness :
    (LiftCSINC rsMix dEmpty).snd = [] ∧ (LiftUMULL rsMix dEmpty).snd = [] ∧
    (LiftCINC rsMix dEmpty).snd = [] ∧ (LiftBFI rsMix dEmpty).snd = [] ∧
    (LiftROR rsMix dEmpty).snd = [] :=
  ⟨(lifters_atomic rsMix dEmpty).1 rfl,
   (lifters_atomic rsMix dEmpty).2.1 rfl,
   (lifters_atomic rsMix dEmpty).2.2.1 rfl,
   (lifters_atomic rsMix dEmpty).2.2.2.1 rfl,
   (lifters_atomic rsMix dEmpty).2.2.2.2 rfl⟩

/-- Claim C10: a 3-operand ROR whose third operand is neither a register
nor an immediate is rejected with no IL emitted, so it falls through to
the default host lift.  (The Rd/Rn width check of line 274 compares
regSize Rd with itself and thus always passes, so no width hypothesis is
needed.) -/
theorem liftROR_unknown_operand_fallthrough (regSize : Nat → Nat)
    (d : CsArm64) (h : d.operands.length = 3)
    (hr : (opAt d 2).type ≠ .reg)
    (hi : (opAt d 2).type ≠ .imm) :
    LiftROR regSize d = (false, []) := by
  unfold LiftROR
  rw [if_neg (by omega)]
  dsimp only
  rw [if_neg (by simp), if_neg hr, if_neg hi]

/-- Witness for liftROR_unknown_operand_fallthrough on the memory-operand
detail rorMem. -/
theorem liftROR_unknown_operand_fallthrough_witness :
    rorMem.operands.length = 3 ∧ (opAt rorMem 2).type ≠ .reg ∧
    (opAt rorMem 2).type ≠ .imm ∧ LiftROR rsMix rorMem = (false, []) :=
  ⟨rfl, by decide, by decide,
   liftROR_unknown_operand_fallthrough rsMix rorMem rfl (by decide) (by decide)⟩

end AArch64Ext
